import Mathlib

/-!
Shallow embedding of the appointment-scheduling core of src/server.js
(barber-scheduler/backend-barberaria): the tables it queries, the helper
functions hasOverlappingAppointment and getServiceDetails, and the four
appointment routes (create, cancel, client listing, provider-today listing).
Timestamps are modelled as integers (milliseconds since the epoch, matching
Date.getTime); SQL rows become Lean structures and the tables lists of rows.
-/

set_option autoImplicit false

namespace BarberScheduler

/-- Appointment status values stored in the appointments table. The source
writes PENDING on insert and CANCELLED on cancel; the other values are part of
the status space its queries filter on. -/
inductive Status where
  | PENDING
  | CONFIRMED
  | COMPLETED
  | CANCELLED
  | NO_SHOW
deriving DecidableEq, Repr

/-- Status filter appearing in the SQL clauses: status NOT IN (CANCELLED, NO_SHOW). -/
def Status.isActive : Status → Bool
  | .CANCELLED => false
  | .NO_SHOW => false
  | _ => true

/-- Row of the services table (the columns the core reads). -/
structure Service where
  id : Int
  name : String
  durationMin : Int
  priceCents : Int
deriving DecidableEq, Repr

/-- Row of the professional_services table: a per-(professional, service)
override where each custom column may be NULL independently. -/
structure ProfessionalService where
  professionalId : Int
  serviceId : Int
  customDurationMin : Option Int
  customPriceCents : Option Int
deriving DecidableEq, Repr

/-- Row of the professionals table (the columns the appointment routes read). -/
structure Professional where
  id : Int
  userId : Int
deriving DecidableEq, Repr

/-- Row of the users table (the columns the appointment routes read). -/
structure UserRow where
  id : Int
  fullName : String
deriving DecidableEq, Repr

/-- Row of the appointments table. -/
structure Appointment where
  id : Int
  clientId : Int
  professionalId : Int
  serviceId : Int
  startTime : Int
  endTime : Int
  status : Status
  totalPriceCents : Int
  notes : Option String
  createdAt : Int
  updatedAt : Int
deriving DecidableEq, Repr

/-- State of the backing store: the tables the appointment routes touch, plus
the id the next INSERT INTO appointments will be assigned. -/
structure DBState where
  services : List Service
  professionalServices : List ProfessionalService
  professionals : List Professional
  users : List UserRow
  appointments : List Appointment
  nextId : Int
deriving DecidableEq, Repr

/-- Overlap of the half-open ranges tstzrange(s1, e1) and tstzrange(s2, e2)
under the PostgreSQL range-overlap operator: an empty range (lower bound not
below the upper bound) intersects nothing; two nonempty ranges intersect
exactly when each starts before the other ends. -/
def rangeOverlap (s1 e1 s2 e2 : Int) : Bool :=
  decide (s1 < e1) && decide (s2 < e2) && decide (s1 < e2) && decide (s2 < e1)

/-- Translation of hasOverlappingAppointment (src/server.js lines 36-47):
SELECT 1 FROM appointments WHERE professional_id = $1 AND status NOT IN
(CANCELLED, NO_SHOW) AND tstzrange(start_time, end_time) overlaps
tstzrange($2, $3) LIMIT 1 — true exactly when some row qualifies. -/
def hasOverlappingAppointment (db : DBState) (professionalId startTime endTime : Int) : Bool :=
  db.appointments.any fun a =>
    a.professionalId == professionalId && a.status.isActive &&
      rangeOverlap a.startTime a.endTime startTime endTime

/-- Effective duration and price returned by getServiceDetails. -/
structure EffectiveServiceDetails where
  durationMin : Int
  priceCents : Int
deriving DecidableEq, Repr

/-- Translation of getServiceDetails (src/server.js lines 49-70): the service
row is looked up by id alone; a LEFT JOIN brings in the override row for this
professional when one exists; the JS nullish-coalescing operator takes each
custom column when it is non-null and the service default otherwise, per field
independently. Returns none exactly when no service row matches. -/
def getServiceDetails (db : DBState) (professionalId serviceId : Int) :
    Option EffectiveServiceDetails :=
  match db.services.find? (fun s => s.id == serviceId) with
  | none => none
  | some s =>
    match db.professionalServices.find?
        (fun ps => ps.serviceId == s.id && ps.professionalId == professionalId) with
    | none => some ⟨s.durationMin, s.priceCents⟩
    | some ps =>
      some ⟨ps.customDurationMin.getD s.durationMin, ps.customPriceCents.getD s.priceCents⟩

/-- JS truthiness of an optional numeric request field: an absent field, a
null field and the number 0 are all falsy under the bang operator. -/
def truthyInt : Option Int → Bool
  | none => false
  | some n => !(n == 0)

/-- JS truthiness of an optional string request field: an absent field, a null
field and the empty string are all falsy under the bang operator. -/
def truthyStr : Option String → Bool
  | none => false
  | some s => !(s == "")

/-- Body of a POST /appointments request; absent JSON fields are none. -/
structure CreateRequest where
  clientId : Option Int
  professionalId : Option Int
  serviceId : Option Int
  startTime : Option String
  notes : Option String
deriving DecidableEq, Repr

/-- Outcome of the create handler, by HTTP response: 201 with the inserted
row, 400 for missing fields, 400 for an unknown service, 409 for a time
conflict, 500 for a storage fault reaching the catch block. -/
inductive CreateResult where
  | created (a : Appointment)
  | validationError
  | invalidServiceError
  | conflictError
  | internalError
deriving DecidableEq, Repr

/-- True exactly on the created outcome. -/
def CreateResult.isCreated : CreateResult → Bool
  | .created _ => true
  | _ => false

/-- Translation of the POST /appointments handler (src/server.js lines
241-298) run to completion without interleaving: falsy-field validation, then
service resolution, then endTime = startTime plus durationMin minutes
(60000 ms per minute), then the overlap check, then the INSERT with status
PENDING and the resolved price. parseTime stands for new Date(s).getTime();
now stands for the row timestamps the store assigns. -/
def createAppointment (parseTime : String → Int) (db : DBState) (req : CreateRequest)
    (now : Int) : CreateResult × DBState :=
  if !truthyInt req.clientId || !truthyInt req.professionalId
      || !truthyInt req.serviceId || !truthyStr req.startTime then
    (.validationError, db)
  else
    match getServiceDetails db (req.professionalId.getD 0) (req.serviceId.getD 0) with
    | none => (.invalidServiceError, db)
    | some details =>
      let start := parseTime (req.startTime.getD "")
      let stop := start + details.durationMin * 60000
      if hasOverlappingAppointment db (req.professionalId.getD 0) start stop then
        (.conflictError, db)
      else
        let a : Appointment :=
          { id := db.nextId
            clientId := req.clientId.getD 0
            professionalId := req.professionalId.getD 0
            serviceId := req.serviceId.getD 0
            startTime := start
            endTime := stop
            status := .PENDING
            totalPriceCents := details.priceCents
            notes := req.notes
            createdAt := now
            updatedAt := now }
        (.created a, { db with appointments := db.appointments ++ [a], nextId := db.nextId + 1 })

/-- Variant of the create handler in which the INSERT query may throw. The
list gives, for each insert attempt the handler would be willing to make,
whether that attempt fails; the third component of the result counts the
insert attempts actually performed. The source wraps the whole handler in a
single try/catch whose catch block immediately answers 500, so the handler
performs at most one attempt and never consults a second entry of the list. -/
def createAppointmentWithStore (parseTime : String → Int) (db : DBState) (req : CreateRequest)
    (now : Int) (insertFailures : List Bool) : CreateResult × DBState × Nat :=
  if !truthyInt req.clientId || !truthyInt req.professionalId
      || !truthyInt req.serviceId || !truthyStr req.startTime then
    (.validationError, db, 0)
  else
    match getServiceDetails db (req.professionalId.getD 0) (req.serviceId.getD 0) with
    | none => (.invalidServiceError, db, 0)
    | some details =>
      let start := parseTime (req.startTime.getD "")
      let stop := start + details.durationMin * 60000
      if hasOverlappingAppointment db (req.professionalId.getD 0) start stop then
        (.conflictError, db, 0)
      else if insertFailures.headD false then
        (.internalError, db, 1)
      else
        let a : Appointment :=
          { id := db.nextId
            clientId := req.clientId.getD 0
            professionalId := req.professionalId.getD 0
            serviceId := req.serviceId.getD 0
            startTime := start
            endTime := stop
            status := .PENDING
            totalPriceCents := details.priceCents
            notes := req.notes
            createdAt := now
            updatedAt := now }
        (.created a,
         { db with appointments := db.appointments ++ [a], nextId := db.nextId + 1 }, 1)

/-- Outcome of the cancel handler: 200 with the updated row, or 404. -/
inductive CancelResult where
  | ok (a : Appointment)
  | notFoundError
deriving DecidableEq, Repr

/-- Translation of the PATCH /appointments/:id/cancel handler (src/server.js
lines 377-398): UPDATE appointments SET status = CANCELLED, updated_at = NOW()
WHERE id = $1 RETURNING *, answering 404 when no row matched. The update is
unconditional on the current status. -/
def cancelAppointment (db : DBState) (appointmentId now : Int) : CancelResult × DBState :=
  match db.appointments.find? (fun a => a.id == appointmentId) with
  | none => (.notFoundError, db)
  | some a =>
    (.ok { a with status := Status.CANCELLED, updatedAt := now },
     { db with appointments := db.appointments.map fun b =>
         if b.id == appointmentId then { b with status := Status.CANCELLED, updatedAt := now }
         else b })

/-- Row of the GET /clients/:id/appointments response. -/
structure ClientAppointmentRow where
  id : Int
  startTime : Int
  endTime : Int
  status : Status
  totalPriceCents : Int
  serviceName : String
  professionalName : String
deriving DecidableEq, Repr

/-- Joined row the client listing builds for one appointment: the inner joins
on services, professionals and users drop the appointment when a referenced
row is missing. -/
def clientRowOf (db : DBState) (a : Appointment) : Option ClientAppointmentRow :=
  match db.services.find? (fun s => s.id == a.serviceId) with
  | none => none
  | some s =>
    match db.professionals.find? (fun p => p.id == a.professionalId) with
    | none => none
    | some p =>
      match db.users.find? (fun u => u.id == p.userId) with
      | none => none
      | some u =>
        some ⟨a.id, a.startTime, a.endTime, a.status, a.totalPriceCents, s.name, u.fullName⟩

/-- Translation of GET /clients/:id/appointments (src/server.js lines
303-333): WHERE client_id = $1, joins for the service and professional names,
ORDER BY start_time DESC. No status filter. -/
def listClientAppointments (db : DBState) (clientId : Int) : List ClientAppointmentRow :=
  ((db.appointments.filter fun a => a.clientId == clientId).filterMap (clientRowOf db)).mergeSort
    fun x y => decide (y.startTime ≤ x.startTime)

/-- Row of the GET /professionals/:id/appointments/today response. -/
structure ProviderAppointmentRow where
  id : Int
  startTime : Int
  endTime : Int
  status : Status
  totalPriceCents : Int
  serviceName : String
  clientName : String
deriving DecidableEq, Repr

/-- Joined row the provider listing builds for one appointment: inner joins on
services (by service id) and users (by client id). -/
def providerRowOf (db : DBState) (a : Appointment) : Option ProviderAppointmentRow :=
  match db.services.find? (fun s => s.id == a.serviceId) with
  | none => none
  | some s =>
    match db.users.find? (fun u => u.id == a.clientId) with
    | none => none
    | some u =>
      some ⟨a.id, a.startTime, a.endTime, a.status, a.totalPriceCents, s.name, u.fullName⟩

/-- Translation of the query of GET /professionals/:id/appointments/today
(src/server.js lines 336-374): WHERE professional_id = $1 AND status NOT IN
(CANCELLED, NO_SHOW) AND start_time cast to a date equals CURRENT_DATE, joins
for the service and client names, ORDER BY start_time ASC. The cast of a
timestamp to a date is abstracted by dateOf and CURRENT_DATE by today. -/
def listProviderAppointmentsForDate (dateOf : Int → Int) (db : DBState)
    (professionalId today : Int) : List ProviderAppointmentRow :=
  ((db.appointments.filter fun a =>
      a.professionalId == professionalId && a.status.isActive && dateOf a.startTime == today)
    |>.filterMap (providerRowOf db)).mergeSort fun x y => decide (x.startTime ≤ y.startTime)

/-- One client-visible operation on the appointment store. -/
inductive Op where
  | create (req : CreateRequest) (now : Int)
  | cancel (appointmentId : Int) (now : Int)
deriving DecidableEq, Repr

/-- State reached after one operation runs to completion. -/
def applyOp (parseTime : String → Int) (db : DBState) : Op → DBState
  | .create req now => (createAppointment parseTime db req now).2
  | .cancel appointmentId now => (cancelAppointment db appointmentId now).2

/-- State reached after a sequence of operations, each run to completion. -/
def runOps (parseTime : String → Int) (db : DBState) (ops : List Op) : DBState :=
  ops.foldl (applyOp parseTime) db

/-- Nonempty intersection of the half-open intervals of two appointments. -/
def intervalsIntersect (a b : Appointment) : Prop :=
  max a.startTime b.startTime < min a.endTime b.endTime

instance (a b : Appointment) : Decidable (intervalsIntersect a b) :=
  inferInstanceAs (Decidable (max a.startTime b.startTime < min a.endTime b.endTime))

/-- Central invariant: for a fixed professional, no two appointments whose
status is outside CANCELLED/NO_SHOW have intersecting half-open intervals. -/
def NoOverlapInvariant (db : DBState) : Prop :=
  db.appointments.Pairwise fun a b =>
    a.professionalId = b.professionalId → a.status.isActive = true →
      b.status.isActive = true → ¬ intervalsIntersect a b

instance (db : DBState) : Decidable (NoOverlapInvariant db) :=
  inferInstanceAs (Decidable (List.Pairwise (fun a b : Appointment =>
    a.professionalId = b.professionalId → a.status.isActive = true →
      b.status.isActive = true → ¬ intervalsIntersect a b) db.appointments))

/-- Row the create handler has decided to insert: everything it computes
before its INSERT query. The handler awaits the overlap check and the INSERT
as two separate queries, so the event loop may run the handler of another request
between the two phases. -/
structure PendingRow where
  clientId : Int
  professionalId : Int
  serviceId : Int
  startTime : Int
  endTime : Int
  priceCents : Int
  notes : Option String
deriving DecidableEq, Repr

/-- Decision phase of POST /appointments: validation, service resolution and
the overlap check, reading the store as it is at that moment. Returns the row
to insert when no error path is taken, none otherwise. -/
def createCheckPhase (parseTime : String → Int) (db : DBState) (req : CreateRequest) :
    Option PendingRow :=
  if !truthyInt req.clientId || !truthyInt req.professionalId
      || !truthyInt req.serviceId || !truthyStr req.startTime then
    none
  else
    match getServiceDetails db (req.professionalId.getD 0) (req.serviceId.getD 0) with
    | none => none
    | some details =>
      let start := parseTime (req.startTime.getD "")
      let stop := start + details.durationMin * 60000
      if hasOverlappingAppointment db (req.professionalId.getD 0) start stop then
        none
      else
        some ⟨req.clientId.getD 0, req.professionalId.getD 0, req.serviceId.getD 0,
          start, stop, details.priceCents, req.notes⟩

/-- Insert phase of POST /appointments: the INSERT query, run against the
store as it is when that query finally executes. -/
def createInsertPhase (db : DBState) (r : PendingRow) (now : Int) : DBState :=
  { db with
    appointments := db.appointments ++
      [{ id := db.nextId
         clientId := r.clientId
         professionalId := r.professionalId
         serviceId := r.serviceId
         startTime := r.startTime
         endTime := r.endTime
         status := .PENDING
         totalPriceCents := r.priceCents
         notes := r.notes
         createdAt := now
         updatedAt := now }]
    nextId := db.nextId + 1 }

/-- Row as the cancel UPDATE leaves it: only status and the modification
timestamp change, every other field is kept. -/
def cancelledRow (now : Int) (a : Appointment) : Appointment :=
  { a with status := Status.CANCELLED, updatedAt := now }

/-! Concrete scenarios used by the example-level statements below. -/

/-- Catalog service with default duration 30 minutes and price 5000 cents. -/
def corteService : Service := ⟨1, "Corte", 30, 5000⟩

/-- User row backing the example professional. -/
def anaUser : UserRow := ⟨10, "Ana"⟩

/-- User row acting as the example client. -/
def beaUser : UserRow := ⟨20, "Bea"⟩

/-- Example professional, backed by user 10. -/
def exampleProfessional : Professional := ⟨1, 10⟩

/-- Store with one service, one professional, two users and no appointments. -/
def exampleDb : DBState := ⟨[corteService], [], [exampleProfessional], [anaUser, beaUser], [], 1⟩

/-- Start-time string of the example request. -/
def exampleStart : String := "2026-10-11T10:00:00.000Z"

/-- Parse function standing for new Date: the example request starts at
10:00, counted as minutes since midnight times 60000 ms. -/
def exampleParse : String → Int := fun _ => 600 * 60000

/-- Example create request: client 20, professional 1, service 1, 10:00. -/
def exampleReq : CreateRequest := ⟨some 20, some 1, some 1, some exampleStart, none⟩

/-- Row the decision phase of the example request produces: 10:00 to 10:30. -/
def racePending : PendingRow := ⟨20, 1, 1, 600 * 60000, 630 * 60000, 5000, none⟩

/-- Existing appointment from 10:00 to 10:30 for professional 1. -/
def bookedAppointment : Appointment :=
  ⟨1, 20, 1, 1, 600 * 60000, 630 * 60000, .PENDING, 5000, none, 0, 0⟩

/-- Store already holding the 10:00 to 10:30 appointment. -/
def boundaryDb : DBState :=
  ⟨[corteService], [], [exampleProfessional], [anaUser, beaUser], [bookedAppointment], 2⟩

/-- Parse function under which the example request starts at 10:30. -/
def boundaryParse : String → Int := fun _ => 630 * 60000

/-- Row the boundary booking inserts: 10:30 to 11:00, touching the existing
appointment without overlapping it. -/
def boundaryCreated : Appointment :=
  ⟨2, 20, 1, 1, 630 * 60000, 660 * 60000, .PENDING, 5000, none, 0, 0⟩

/-- Store after the boundary booking: both touching appointments persisted. -/
def boundaryDbAfter : DBState :=
  ⟨[corteService], [], [exampleProfessional], [anaUser, beaUser],
    [bookedAppointment, boundaryCreated], 3⟩

/-- Catalog service used by the override example: duration 30, price 5000. -/
def barbaService : Service := ⟨2, "Barba", 30, 5000⟩

/-- Override for professional 1 on service 2 setting only the duration, 45. -/
def durationOnlyOverride : ProfessionalService := ⟨1, 2, some 45, none⟩

/-- Store for the override example. -/
def overrideExampleDb : DBState := ⟨[barbaService], [durationOnlyOverride], [], [], [], 1⟩

/-- Cancelled appointment from 11:40 to 12:10 for professional 1. -/
def cancelledAppointment : Appointment :=
  ⟨2, 20, 1, 1, 700 * 60000, 730 * 60000, .CANCELLED, 5000, none, 0, 0⟩

/-- Store holding one active and one cancelled appointment. -/
def listingDb : DBState :=
  ⟨[corteService], [], [exampleProfessional], [anaUser, beaUser],
    [bookedAppointment, cancelledAppointment], 3⟩

/-- Date projection used in examples: whole days since the epoch. -/
def exampleDateOf : Int → Int := fun t => t / 86400000

/-- Request with every field absent. -/
def blankReq : CreateRequest := ⟨none, none, none, none, none⟩

/-- The empty string. -/
def emptyString : String := ""

/-! Helper lemmas shared by the claim theorems. -/

/-- Intersecting half-open intervals of two appointments make the range
overlap test true. -/
theorem intersect_rangeOverlap {a b : Appointment} (h : intervalsIntersect a b) :
    rangeOverlap a.startTime a.endTime b.startTime b.endTime = true := by
  unfold intervalsIntersect at h
  rw [max_lt_iff] at h
  obtain ⟨h1, h2⟩ := h
  rw [lt_min_iff] at h1 h2
  simp [rangeOverlap, h1.1, h1.2, h2.1, h2.2]

/-- The status filter of the SQL queries, spelled as two disequalities. -/
theorem isActive_iff (st : Status) :
    st.isActive = true ↔ st ≠ Status.CANCELLED ∧ st ≠ Status.NO_SHOW := by
  cases st <;> simp [Status.isActive]

/-- C1: the source violates the claim: the overlap check and the insert of
POST /appointments are two separate queries with no transaction and no lock,
so under the event-loop schedule check, check, insert, insert two identical
concurrent requests both pass the check against the same store state and both
insert. The store ends with two fully overlapping PENDING rows for
professional 1 and neither request sees ConflictError, although a serialized
second check (second conjunct) would have refused the second request. -/
theorem create_race_double_booking :
    createCheckPhase exampleParse exampleDb exampleReq = some racePending ∧
    createCheckPhase exampleParse (createInsertPhase exampleDb racePending 0) exampleReq =
      none ∧
    (createInsertPhase (createInsertPhase exampleDb racePending 0)
      racePending 1).appointments.length = 2 ∧
    ¬ NoOverlapInvariant
      (createInsertPhase (createInsertPhase exampleDb racePending 0) racePending 1) := by
  decide

/-- C3: the overlap check uses half-open interval semantics: two nonempty
intervals conflict exactly when each one starts before the other ends; an
interval touching another at an endpoint does not conflict; and the concrete
booking starting exactly at the endTime of the existing appointment succeeds
and inserts its row. -/
theorem overlap_halfopen_semantics (s1 e1 s2 e2 : Int) (h1 : s1 < e1) (h2 : s2 < e2) :
    (rangeOverlap s1 e1 s2 e2 = true ↔ (s1 < e2 ∧ s2 < e1)) ∧
    (s2 = e1 → rangeOverlap s1 e1 s2 e2 = false) ∧
    (e2 = s1 → rangeOverlap s1 e1 s2 e2 = false) ∧
    createAppointment boundaryParse boundaryDb exampleReq 0 =
      (CreateResult.created boundaryCreated, boundaryDbAfter) := by
  refine ⟨?_, ?_, ?_, by decide⟩
  · simp [rangeOverlap, h1, h2, Bool.and_eq_true, decide_eq_true_eq]
  · intro h
    simp [rangeOverlap, h]
  · intro h
    simp [rangeOverlap, h]

/-- Witness for C3 at the concrete touching intervals 0 to 10 and 10 to 20. -/
theorem overlap_halfopen_semantics_witness : rangeOverlap 0 10 10 20 = false :=
  (overlap_halfopen_semantics 0 10 10 20 (by decide) (by decide)).2.1 rfl

/-- C4 counterexample: with a store whose first insert attempt fails
transiently and whose second attempt would succeed, the handler surfaces
InternalError at once after exactly one attempt and writes nothing: the
claimed bounded retry with backoff does not happen. -/
theorem create_retry_counterexample :
    createAppointmentWithStore exampleParse exampleDb exampleReq 0 [true, false] =
      (CreateResult.internalError, exampleDb, 1) := by
  decide

/-- C4 (amended): the create handler performs at most one insert attempt, and
when that single attempt fails the failure surfaces immediately as
InternalError with the store unchanged: no retry and no backoff occur. -/
theorem create_transient_failure_not_retried (parseTime : String → Int) (db : DBState)
    (req : CreateRequest) (now : Int) (insertFailures : List Bool) :
    (createAppointmentWithStore parseTime db req now insertFailures).2.2 ≤ 1 ∧
    ((createAppointmentWithStore parseTime db req now insertFailures).2.2 = 1 →
      insertFailures.headD false = true →
      createAppointmentWithStore parseTime db req now insertFailures =
        (CreateResult.internalError, db, 1)) := by
  by_cases hval : (!truthyInt req.clientId || !truthyInt req.professionalId
      || !truthyInt req.serviceId || !truthyStr req.startTime) = true
  · simp [createAppointmentWithStore, hval]
  · cases hdet : getServiceDetails db (req.professionalId.getD 0) (req.serviceId.getD 0) with
    | none => simp [createAppointmentWithStore, hval, hdet]
    | some details =>
      by_cases hconf : hasOverlappingAppointment db (req.professionalId.getD 0)
          (parseTime (req.startTime.getD ""))
          (parseTime (req.startTime.getD "") + details.durationMin * 60000) = true
      · simp [createAppointmentWithStore, hval, hdet, hconf]
      · by_cases hhead : insertFailures.head?.getD false = true
        · simp [createAppointmentWithStore, hval, hdet, hconf, hhead]
        · simp [createAppointmentWithStore, hval, hdet, hconf, hhead]

/-- Witness for C4 at a store failing its only attempted insert. -/
theorem create_transient_failure_not_retried_witness :
    createAppointmentWithStore exampleParse exampleDb exampleReq 0 [true] =
      (CreateResult.internalError, exampleDb, 1) :=
  (create_transient_failure_not_retried exampleParse exampleDb exampleReq 0 [true]).2
    (by decide) (by decide)

/-- C5: when the service row exists, resolution takes each of duration and
price from the override row when that column is present there and from the
service default otherwise, independently per field; in the concrete example a
duration-only override of 45 over defaults 30 and 5000 yields duration 45 and
price 5000. -/
theorem getServiceDetails_override_precedence (db : DBState)
    (professionalId serviceId : Int) (s : Service)
    (hs : db.services.find? (fun t => t.id == serviceId) = some s) :
    getServiceDetails db professionalId serviceId =
      some ⟨((db.professionalServices.find? fun ps =>
                ps.serviceId == s.id && ps.professionalId == professionalId).bind
              ProfessionalService.customDurationMin).getD s.durationMin,
            ((db.professionalServices.find? fun ps =>
                ps.serviceId == s.id && ps.professionalId == professionalId).bind
              ProfessionalService.customPriceCents).getD s.priceCents⟩ ∧
    getServiceDetails overrideExampleDb 1 2 = some ⟨45, 5000⟩ := by
  refine ⟨?_, by decide⟩
  have step : getServiceDetails db professionalId serviceId =
      match db.professionalServices.find? fun ps =>
        ps.serviceId == s.id && ps.professionalId == professionalId with
      | none => some (EffectiveServiceDetails.mk s.durationMin s.priceCents)
      | some ps => some (EffectiveServiceDetails.mk (ps.customDurationMin.getD s.durationMin)
          (ps.customPriceCents.getD s.priceCents)) := by
    unfold getServiceDetails
    rw [hs]
  rw [step]
  cases hov : db.professionalServices.find? fun ps =>
      ps.serviceId == s.id && ps.professionalId == professionalId with
  | none => rfl
  | some ps => rfl

/-- Witness for C5 at the duration-only override example. -/
theorem getServiceDetails_override_precedence_witness :
    getServiceDetails overrideExampleDb 1 2 = some ⟨45, 5000⟩ :=
  (getServiceDetails_override_precedence overrideExampleDb 1 2 barbaService (by decide)).2

/-- C10: a create request in which clientId, professionalId or serviceId
equals 0, or startTime is the empty string, is rejected as a missing-field
ValidationError with the store unchanged, because the bang operator of the
presence check treats every falsy field value as absent. -/
theorem falsy_required_fields_rejected (parseTime : String → Int) (db : DBState) (now : Int)
    (clientId professionalId serviceId : Option Int) (startTime notes : Option String)
    (h : clientId = some 0 ∨ professionalId = some 0 ∨ serviceId = some 0 ∨
      startTime = some emptyString) :
    createAppointment parseTime db ⟨clientId, professionalId, serviceId, startTime, notes⟩
      now = (CreateResult.validationError, db) := by
  unfold createAppointment
  rcases h with h | h | h | h <;> subst h <;> simp [truthyInt, truthyStr, emptyString]

/-- Witness for C10 at a request whose clientId is the number 0. -/
theorem falsy_required_fields_rejected_witness :
    createAppointment exampleParse exampleDb
      ⟨some 0, some 1, some 1, some exampleStart, none⟩ 0 =
      (CreateResult.validationError, exampleDb) :=
  falsy_required_fields_rejected exampleParse exampleDb 0 (some 0) (some 1) (some 1)
    (some exampleStart) none (Or.inl rfl)

/-- The store component of the sequential create handler factors through the
decision phase followed by the insert phase. -/
theorem createAppointment_snd_eq (parseTime : String → Int) (db : DBState)
    (req : CreateRequest) (now : Int) :
    (createAppointment parseTime db req now).2 =
      match createCheckPhase parseTime db req with
      | none => db
      | some r => createInsertPhase db r now := by
  by_cases hval : (!truthyInt req.clientId || !truthyInt req.professionalId
      || !truthyInt req.serviceId || !truthyStr req.startTime) = true
  · simp [createAppointment, createCheckPhase, hval]
  · cases hdet : getServiceDetails db (req.professionalId.getD 0) (req.serviceId.getD 0) with
    | none => simp [createAppointment, createCheckPhase, hval, hdet]
    | some details =>
      by_cases hconf : hasOverlappingAppointment db (req.professionalId.getD 0)
          (parseTime (req.startTime.getD ""))
          (parseTime (req.startTime.getD "") + details.durationMin * 60000) = true
      · simp [createAppointment, createCheckPhase, hval, hdet, hconf]
      · simp [createAppointment, createCheckPhase, createInsertPhase, hval, hdet, hconf]

/-- A pending row returned by the decision phase passed the overlap check
against the store it read. -/
theorem createCheckPhase_overlap_false (parseTime : String → Int) (db : DBState)
    (req : CreateRequest) (r : PendingRow)
    (h : createCheckPhase parseTime db req = some r) :
    hasOverlappingAppointment db r.professionalId r.startTime r.endTime = false := by
  unfold createCheckPhase at h
  by_cases hval : (!truthyInt req.clientId || !truthyInt req.professionalId
      || !truthyInt req.serviceId || !truthyStr req.startTime) = true
  · simp [hval] at h
  · cases hdet : getServiceDetails db (req.professionalId.getD 0) (req.serviceId.getD 0) with
    | none => simp [hval, hdet] at h
    | some details =>
      by_cases hconf : hasOverlappingAppointment db (req.professionalId.getD 0)
          (parseTime (req.startTime.getD ""))
          (parseTime (req.startTime.getD "") + details.durationMin * 60000) = true
      · simp [hval, hdet, hconf] at h
      · simp only [hval, hdet, hconf, if_neg, if_false, Bool.false_eq_true,
          not_false_eq_true, Option.some.injEq] at h
        subst h
        simpa using hconf

/-- Appending a row that passed the overlap check keeps the invariant. -/
theorem noOverlap_insertPhase (db : DBState) (r : PendingRow) (now : Int)
    (h : NoOverlapInvariant db)
    (hconf : hasOverlappingAppointment db r.professionalId r.startTime r.endTime = false) :
    NoOverlapInvariant (createInsertPhase db r now) := by
  unfold NoOverlapInvariant at h ⊢
  unfold createInsertPhase
  dsimp only
  rw [List.pairwise_append]
  refine ⟨h, List.pairwise_singleton _ _, ?_⟩
  intro x hx y hy
  rw [List.mem_singleton] at hy
  subst hy
  intro hprof hxact hyact hint
  unfold hasOverlappingAppointment at hconf
  rw [List.any_eq_false] at hconf
  apply hconf x hx
  have hro := intersect_rangeOverlap hint
  simp only [Bool.and_eq_true]
  refine ⟨⟨?_, hxact⟩, ?_⟩
  · exact beq_iff_eq.mpr (by simpa using hprof)
  · simpa using hro

/-- The sequential create handler keeps the invariant. -/
theorem createAppointment_preserves (parseTime : String → Int) (db : DBState)
    (req : CreateRequest) (now : Int) (h : NoOverlapInvariant db) :
    NoOverlapInvariant (createAppointment parseTime db req now).2 := by
  rw [createAppointment_snd_eq]
  cases hc : createCheckPhase parseTime db req with
  | none => exact h
  | some r =>
    exact noOverlap_insertPhase db r now h
      (createCheckPhase_overlap_false parseTime db req r hc)

/-- The cancel handler keeps the invariant: it only moves rows out of the
active statuses and never touches an interval. -/
theorem cancelAppointment_preserves (db : DBState) (appointmentId now : Int)
    (h : NoOverlapInvariant db) :
    NoOverlapInvariant (cancelAppointment db appointmentId now).2 := by
  unfold cancelAppointment
  cases hfind : db.appointments.find? (fun a => a.id == appointmentId) with
  | none => exact h
  | some a0 =>
    unfold NoOverlapInvariant at h ⊢
    dsimp only
    rw [List.pairwise_map]
    refine h.imp ?_
    intro a b hab
    intro hprof hact1 hact2 hint
    by_cases ha : (a.id == appointmentId) = true
    · simp [ha, Status.isActive] at hact1
    · by_cases hb : (b.id == appointmentId) = true
      · simp [hb, Status.isActive] at hact2
      · simp only [ha, hb, if_neg, if_false, Bool.false_eq_true, not_false_eq_true]
          at hprof hact1 hact2 hint
        exact hab hprof hact1 hact2 hint

/-- C2: after any sequence of create and cancel operations, each run to
completion, all pairs of appointments of one professional whose status is
outside CANCELLED and NO_SHOW have non-intersecting half-open intervals. -/
theorem noOverlapInvariant_preserved (parseTime : String → Int) (db : DBState)
    (ops : List Op) (h : NoOverlapInvariant db) :
    NoOverlapInvariant (runOps parseTime db ops) := by
  induction ops generalizing db with
  | nil => exact h
  | cons op rest ih =>
    cases op with
    | create req now =>
      exact ih _ (createAppointment_preserves parseTime db req now h)
    | cancel appointmentId now =>
      exact ih _ (cancelAppointment_preserves db appointmentId now h)

/-- Witness for C2 on a concrete run: book, cancel the booking, book again. -/
theorem noOverlapInvariant_preserved_witness :
    NoOverlapInvariant (runOps exampleParse exampleDb
      [Op.create exampleReq 0, Op.cancel 1 5, Op.create exampleReq 7]) :=
  noOverlapInvariant_preserved exampleParse exampleDb
    [Op.create exampleReq 0, Op.cancel 1 5, Op.create exampleReq 7] (by decide)

/-- Resolution unfolded at a found service row. -/
theorem getServiceDetails_eq_of_find (db : DBState) (professionalId serviceId : Int)
    (s : Service) (hs : db.services.find? (fun t => t.id == serviceId) = some s) :
    getServiceDetails db professionalId serviceId =
      match db.professionalServices.find? fun ps =>
        ps.serviceId == s.id && ps.professionalId == professionalId with
      | none => some (EffectiveServiceDetails.mk s.durationMin s.priceCents)
      | some ps => some (EffectiveServiceDetails.mk (ps.customDurationMin.getD s.durationMin)
          (ps.customPriceCents.getD s.priceCents)) := by
  unfold getServiceDetails
  rw [hs]

/-- C6: resolution fails exactly when no service row matches the service id,
whatever the professional, so a missing override alone is never an error; and
under a request that passes the presence check the create handler maps that
failure to InvalidServiceError with the store unchanged. -/
theorem getServiceDetails_none_iff (db : DBState) (professionalId serviceId : Int) :
    (getServiceDetails db professionalId serviceId = none ↔
      db.services.find? (fun s => s.id == serviceId) = none) ∧
    (∀ (parseTime : String → Int) (clientId : Int) (startTime : String)
        (notes : Option String) (now : Int),
      clientId ≠ 0 → professionalId ≠ 0 → serviceId ≠ 0 → startTime ≠ emptyString →
      getServiceDetails db professionalId serviceId = none →
      createAppointment parseTime db
        ⟨some clientId, some professionalId, some serviceId, some startTime, notes⟩ now =
        (CreateResult.invalidServiceError, db)) := by
  constructor
  · constructor
    · intro hnone
      cases hfind : db.services.find? (fun s => s.id == serviceId) with
      | none => rfl
      | some s =>
        rw [getServiceDetails_eq_of_find db professionalId serviceId s hfind] at hnone
        cases hov : db.professionalServices.find? fun ps =>
            ps.serviceId == s.id && ps.professionalId == professionalId with
        | none => rw [hov] at hnone; simp at hnone
        | some ps => rw [hov] at hnone; simp at hnone
    · intro hfind
      unfold getServiceDetails
      rw [hfind]
  · intro parseTime clientId startTime notes now hc hp hsid hst hnone
    have h1 : (clientId == 0) = false := beq_eq_false_iff_ne.mpr hc
    have h2 : (professionalId == 0) = false := beq_eq_false_iff_ne.mpr hp
    have h3 : (serviceId == 0) = false := beq_eq_false_iff_ne.mpr hsid
    have h4 : (startTime == "") = false :=
      beq_eq_false_iff_ne.mpr (by simpa [emptyString] using hst)
    simp [createAppointment, truthyInt, truthyStr, h1, h2, h3, h4, hnone]

/-- Witness for C6 at service id 99, absent from the example catalog. -/
theorem getServiceDetails_none_iff_witness :
    createAppointment exampleParse exampleDb
      ⟨some 20, some 1, some 99, some exampleStart, none⟩ 0 =
      (CreateResult.invalidServiceError, exampleDb) :=
  (getServiceDetails_none_iff exampleDb 1 99).2 exampleParse 20 exampleStart none 0
    (by decide) (by decide) (by decide) (by decide) (by decide)

/-- Pointwise correspondence of a list with its image under a map. -/
theorem forall2_map_self {α : Type} (f : α → α) (R : α → α → Prop) (l : List α)
    (h : ∀ a ∈ l, R a (f a)) : List.Forall₂ R l (l.map f) := by
  induction l with
  | nil => exact List.Forall₂.nil
  | cons x xs ih =>
    exact List.Forall₂.cons (h x (by simp)) (ih fun a ha => h a (by simp [ha]))

/-- C7: cancel answers NotFoundError exactly when no appointment carries the
id, and changes nothing in that case; otherwise it rewrites the status of the
matching row to CANCELLED and its modification timestamp to the current time
regardless of the previous status, leaves every other field and every other
row unchanged, touches no other table, and returns the updated row. -/
theorem cancelAppointment_spec (db : DBState) (appointmentId now : Int) :
    ((cancelAppointment db appointmentId now).1 = CancelResult.notFoundError ↔
      ∀ a ∈ db.appointments, a.id ≠ appointmentId) ∧
    ((cancelAppointment db appointmentId now).1 = CancelResult.notFoundError →
      (cancelAppointment db appointmentId now).2 = db) ∧
    (cancelAppointment db appointmentId now).2.services = db.services ∧
    (cancelAppointment db appointmentId now).2.professionalServices =
      db.professionalServices ∧
    (cancelAppointment db appointmentId now).2.professionals = db.professionals ∧
    (cancelAppointment db appointmentId now).2.users = db.users ∧
    List.Forall₂ (fun a b => b = if a.id = appointmentId then cancelledRow now a else a)
      db.appointments (cancelAppointment db appointmentId now).2.appointments ∧
    (∀ a, db.appointments.find? (fun b => b.id == appointmentId) = some a →
      (cancelAppointment db appointmentId now).1 = CancelResult.ok (cancelledRow now a)) := by
  cases hfind : db.appointments.find? (fun a => a.id == appointmentId) with
  | none =>
    have hall : ∀ a ∈ db.appointments, (a.id == appointmentId) = false := by
      intro a ha
      have := List.find?_eq_none.mp hfind a ha
      simpa using this
    have hres : cancelAppointment db appointmentId now = (.notFoundError, db) := by
      unfold cancelAppointment
      rw [hfind]
    rw [hres]
    refine ⟨?_, fun _ => rfl, rfl, rfl, rfl, rfl, ?_, ?_⟩
    · refine iff_of_true rfl ?_
      intro a ha heq
      have hb := hall a ha
      rw [heq] at hb
      simp at hb
    · rw [List.forall₂_same]
      intro a ha
      rw [if_neg]
      intro heq
      have hb := hall a ha
      rw [heq] at hb
      simp at hb
    · intro a ha
      cases ha
  | some a0 =>
    have hres : cancelAppointment db appointmentId now =
        (.ok (cancelledRow now a0),
         { db with appointments := db.appointments.map fun b =>
             if b.id == appointmentId then cancelledRow now b else b }) := by
      unfold cancelAppointment
      rw [hfind]
      rfl
    have ha0mem := List.mem_of_find?_eq_some hfind
    have ha0id : a0.id = appointmentId := by
      have := List.find?_some hfind
      simpa using this
    rw [hres]
    refine ⟨?_, ?_, rfl, rfl, rfl, rfl, ?_, ?_⟩
    · refine iff_of_false (by simp) ?_
      intro hall
      exact hall a0 ha0mem ha0id
    · intro habs
      exact absurd habs (by simp)
    · refine forall2_map_self _ _ _ ?_
      intro a ha
      by_cases hid : a.id = appointmentId
      · rw [if_pos (beq_iff_eq.mpr hid), if_pos hid]
      · rw [if_neg (by simpa using hid), if_neg hid]
    · intro a ha
      have := Option.some.inj ha
      subst this
      rfl

/-- Witness for C7: an unknown id changes nothing, and cancelling id 1 in the
two-row store returns the row with only status and timestamp rewritten. -/
theorem cancelAppointment_spec_witness :
    (cancelAppointment exampleDb 5 0).2 = exampleDb ∧
    (cancelAppointment listingDb 1 99).1 =
      CancelResult.ok (cancelledRow 99 bookedAppointment) := by
  constructor
  · exact (cancelAppointment_spec exampleDb 5 0).2.1 (by decide)
  · exact (cancelAppointment_spec listingDb 1 99).2.2.2.2.2.2.2 bookedAppointment (by decide)

/-- C8: whenever the create handler answers ValidationError,
InvalidServiceError or ConflictError, the store is unchanged: validation and
service resolution run before any write and a detected overlap returns
ConflictError without performing the insert. -/
theorem create_error_no_write (parseTime : String → Int) (db : DBState)
    (req : CreateRequest) (now : Int)
    (h : (createAppointment parseTime db req now).1 = CreateResult.validationError ∨
      (createAppointment parseTime db req now).1 = CreateResult.invalidServiceError ∨
      (createAppointment parseTime db req now).1 = CreateResult.conflictError) :
    (createAppointment parseTime db req now).2 = db := by
  by_cases hval : (!truthyInt req.clientId || !truthyInt req.professionalId
      || !truthyInt req.serviceId || !truthyStr req.startTime) = true
  · simp [createAppointment, hval]
  · cases hdet : getServiceDetails db (req.professionalId.getD 0) (req.serviceId.getD 0) with
    | none => simp [createAppointment, hval, hdet]
    | some details =>
      by_cases hconf : hasOverlappingAppointment db (req.professionalId.getD 0)
          (parseTime (req.startTime.getD ""))
          (parseTime (req.startTime.getD "") + details.durationMin * 60000) = true
      · simp [createAppointment, hval, hdet, hconf]
      · simp [createAppointment, hval, hdet, hconf] at h

/-- Witness for C8 at the blank request, rejected by validation. -/
theorem create_error_no_write_witness :
    (createAppointment exampleParse exampleDb blankReq 0).2 = exampleDb :=
  create_error_no_write exampleParse exampleDb blankReq 0 (Or.inl (by decide))

/-- The provider row of an appointment carries the status of that row. -/
theorem providerRowOf_status {db : DBState} {a : Appointment}
    {r : ProviderAppointmentRow} (h : providerRowOf db a = some r) :
    r.status = a.status := by
  unfold providerRowOf at h
  cases hs : db.services.find? (fun s => s.id == a.serviceId) with
  | none => rw [hs] at h; cases h
  | some s =>
    rw [hs] at h
    cases hu : db.users.find? (fun u => u.id == a.clientId) with
    | none => rw [hu] at h; cases h
    | some u =>
      rw [hu] at h
      cases h
      rfl

/-- C9: the client listing is a permutation of the joined rows of that client
and is sorted by start time descending; the provider listing for a date is a
permutation of the joined rows of that professional on that date whose status
is outside CANCELLED and NO_SHOW, is sorted by start time ascending, and
every row it returns is neither CANCELLED nor NO_SHOW; both are pure reads of
the store. -/
theorem listings_spec (dateOf : Int → Int) (db : DBState)
    (clientId professionalId today : Int) :
    (listClientAppointments db clientId).Pairwise
      (fun x y => y.startTime ≤ x.startTime) ∧
    (listClientAppointments db clientId).Perm
      ((db.appointments.filter fun a => a.clientId == clientId).filterMap
        (clientRowOf db)) ∧
    (listProviderAppointmentsForDate dateOf db professionalId today).Pairwise
      (fun x y => x.startTime ≤ y.startTime) ∧
    (listProviderAppointmentsForDate dateOf db professionalId today).Perm
      ((db.appointments.filter fun a =>
          a.professionalId == professionalId && a.status.isActive &&
            dateOf a.startTime == today).filterMap (providerRowOf db)) ∧
    (∀ r ∈ listProviderAppointmentsForDate dateOf db professionalId today,
      r.status ≠ Status.CANCELLED ∧ r.status ≠ Status.NO_SHOW) := by
  refine ⟨?_, ?_, ?_, ?_, ?_⟩
  · unfold listClientAppointments
    refine List.Pairwise.imp ?_ (List.sorted_mergeSort ?_ ?_ _)
    · intro a b hb
      exact of_decide_eq_true hb
    · intro a b c hab hbc
      simp only [decide_eq_true_eq] at hab hbc ⊢
      exact le_trans hbc hab
    · intro a b
      simp only [Bool.or_eq_true, decide_eq_true_eq]
      exact le_total b.startTime a.startTime
  · exact List.mergeSort_perm _ _
  · unfold listProviderAppointmentsForDate
    refine List.Pairwise.imp ?_ (List.sorted_mergeSort ?_ ?_ _)
    · intro a b hb
      exact of_decide_eq_true hb
    · intro a b c hab hbc
      simp only [decide_eq_true_eq] at hab hbc ⊢
      exact le_trans hab hbc
    · intro a b
      simp only [Bool.or_eq_true, decide_eq_true_eq]
      exact le_total a.startTime b.startTime
  · exact List.mergeSort_perm _ _
  · intro r hr
    unfold listProviderAppointmentsForDate at hr
    rw [List.mem_mergeSort, List.mem_filterMap] at hr
    obtain ⟨a, ha, hrow⟩ := hr
    rw [List.mem_filter] at ha
    have hact : a.status.isActive = true := by
      have hp := ha.2
      simp only [Bool.and_eq_true] at hp
      exact hp.1.2
    rw [providerRowOf_status hrow]
    exact (isActive_iff a.status).mp hact

/-- Witness for C9: the surviving row of the provider listing on the two-row
store is the pending one and is not cancelled. -/
theorem listings_spec_witness :
    (⟨1, 36000000, 37800000, Status.PENDING, 5000, "Corte", "Bea"⟩ :
      ProviderAppointmentRow).status ≠ Status.CANCELLED :=
  ((listings_spec exampleDateOf listingDb 20 1 0).2.2.2.2 _
    (by unfold listProviderAppointmentsForDate; rw [List.mem_mergeSort]; decide)).1

end BarberScheduler
